import Mathlib

/-!
# Verification of the sivee.pro document-rendering pipeline

A shallow embedding of the core rendering pipeline of the sivee.pro resume
backend, together with proofs of the specified properties:

* the LaTeX escaping filter `LatexRenderer.escape_latex`
  (src/core/LatexRenderer.py), modelled over `List Char`;
* the section-title translation lookup `get_section_title`
  (src/backend/translations.py);
* the section normalizers `convert_section_items` (src/app.py) and
  `_convert_section_items` (src/api/resumes.py), over a small universe of
  Python values;
* the PDF compiler invocation (modelled from the spec, the implementation
  file is not in the source tree) and the generation routes' working
  directory lifecycle.

Python strings are modelled as `List Char` where character-level rewriting
is proved about, and as Lean `String` elsewhere; Python's `str.strip()` is
modelled by `pyStrip`.
-/

set_option maxHeartbeats 1000000

/-! ## Escaper: `LatexRenderer.escape_latex` (src/core/LatexRenderer.py)

Python's `str.replace(old, new)` with a one-character `old` replaces every
occurrence scanning left to right, which for a one-character needle is
exactly character-by-character substitution.  Every needle appearing in
`escape_latex` is a single character, so each pass is one `pyReplace`. -/

/-- One pass of Python `text.replace(c, r)` for a single-character needle `c`. -/
def pyReplace (c : Char) (r : List Char) : List Char → List Char
  | [] => []
  | a :: s => (if a = c then r else [a]) ++ pyReplace c r s

/-- Step 1 of `escape_latex`: `text.replace("\\", r"\textbackslash{}")`. -/
def escape_backslash_step (s : List Char) : List Char :=
  pyReplace '\\' ("\\textbackslash\x7b\x7d".data) s

/-- Step 2 of `escape_latex`: `text.replace("{", r"\{")` then
`text.replace("}", r"\}")`. -/
def escape_braces_step (s : List Char) : List Char :=
  pyReplace '\x7d' ("\\\x7d".data) (pyReplace '\x7b' ("\\\x7b".data) s)

/-- Step 3 of `escape_latex`: the `replacements` dict applied in its
declared order `& % $ # _ ~ ^`. -/
def escape_others_step (s : List Char) : List Char :=
  pyReplace '^' ("\\textasciicircum\x7b\x7d".data)
    (pyReplace '~' ("\\textasciitilde\x7b\x7d".data)
      (pyReplace '_' ("\\_".data)
        (pyReplace '#' ("\\#".data)
          (pyReplace '$' ("\\$".data)
            (pyReplace '%' ("\\%".data)
              (pyReplace '&' ("\\&".data) s))))))

/-- `LatexRenderer.escape_latex` on the string case, transcribed pass by
pass in source order: backslash first, then the two braces, then the
`replacements` dict in its declared order. -/
def escape_latex (s : List Char) : List Char :=
  let t1 := pyReplace '\\' ("\\textbackslash\x7b\x7d".data) s
  let t2 := pyReplace '\x7b' ("\\\x7b".data) t1
  let t3 := pyReplace '\x7d' ("\\\x7d".data) t2
  let t4 := pyReplace '&' ("\\&".data) t3
  let t5 := pyReplace '%' ("\\%".data) t4
  let t6 := pyReplace '$' ("\\$".data) t5
  let t7 := pyReplace '#' ("\\#".data) t6
  let t8 := pyReplace '_' ("\\_".data) t7
  let t9 := pyReplace '~' ("\\textasciitilde\x7b\x7d".data) t8
  pyReplace '^' ("\\textasciicircum\x7b\x7d".data) t9

/-- The Python values that can reach the `escape_latex` filter: the
`isinstance(text, str)` guard returns any non-string argument unchanged. -/
inductive EscArg where
  | pystr : List Char → EscArg
  | pyint : Int → EscArg
  | pybool : Bool → EscArg
  | pynone : EscArg
deriving DecidableEq

/-- `LatexRenderer.escape_latex` including the non-string passthrough
(`if not isinstance(text, str): return text`). -/
def escape_latex_py : EscArg → EscArg
  | .pystr s => .pystr (escape_latex s)
  | v => v

/-- `pyReplace` is a homomorphism for list append. -/
theorem pyReplace_append (c : Char) (r : List Char) (xs ys : List Char) :
    pyReplace c r (xs ++ ys) = pyReplace c r xs ++ pyReplace c r ys := by
  induction xs with
  | nil => rfl
  | cons a xs ih => simp [pyReplace, ih]

/-- `escape_latex` is a homomorphism for list append: every pass is. -/
theorem escape_latex_append (xs ys : List Char) :
    escape_latex (xs ++ ys) = escape_latex xs ++ escape_latex ys := by
  simp [escape_latex, pyReplace_append]

/-- Peeling one character off the front of `escape_latex`. -/
theorem escape_latex_cons (a : Char) (s : List Char) :
    escape_latex (a :: s) = escape_latex [a] ++ escape_latex s := by
  have h : a :: s = [a] ++ s := rfl
  rw [h, escape_latex_append]

/-- The characters `escape_latex` rewrites. -/
def latexSpecialChars : List Char :=
  ['\\', '\x7b', '\x7d', '&', '%', '$', '#', '_', '~', '^']

/-- On a character none of the passes touch, `escape_latex` is the
identity. -/
theorem escape_latex_other (a : Char) (h : a ∉ latexSpecialChars) :
    escape_latex [a] = [a] := by
  simp only [latexSpecialChars, List.mem_cons, List.not_mem_nil, or_false] at h
  push_neg at h
  obtain ⟨h1, h2, h3, h4, h5, h6, h7, h8, h9, h10⟩ := h
  simp [escape_latex, pyReplace, h1, h2, h3, h4, h5, h6, h7, h8, h9, h10]

/-! ## Injection safety of the escaped output (spec §4.1, §8)

The spec's notion of a *recognized safe-escape token*: one of the control
words or escaped characters that `escape_latex` emits.  `SafeBackslashes`
holds of a character list that is a concatenation of non-backslash
characters and such tokens, i.e. every backslash in it begins a recognized
token. -/

/-- The safe-escape tokens of spec §8: `\textbackslash`, `\{`, `\}`, `\&`,
`\%`, `\$`, `\#`, `\_`, `\textasciitilde`, `\textasciicircum`. -/
def safeTokens : List (List Char) :=
  ["\\textbackslash".data, "\\\x7b".data, "\\\x7d".data, "\\&".data,
   "\\%".data, "\\$".data, "\\#".data, "\\_".data,
   "\\textasciitilde".data, "\\textasciicircum".data]

/-- Every backslash in the list is part of a recognized safe-escape token:
the list is a concatenation of non-backslash characters and members of
`safeTokens`. -/
inductive SafeBackslashes : List Char → Prop where
  | nil : SafeBackslashes []
  | chr {c : Char} {l : List Char} :
      c ≠ '\\' → SafeBackslashes l → SafeBackslashes (c :: l)
  | tok {t l : List Char} :
      t ∈ safeTokens → SafeBackslashes l → SafeBackslashes (t ++ l)

/-- `pat` is a prefix of `s` (both as raw character lists). -/
def lcStartsWith : List Char → List Char → Bool
  | [], _ => true
  | _ :: _, [] => false
  | a :: pat, b :: s => a = b && lcStartsWith pat s

/-- `pat` occurs as a contiguous substring of `s` (Python's `in` on str). -/
def containsSub (pat : List Char) : List Char → Bool
  | [] => lcStartsWith pat []
  | s@(_ :: rest) => lcStartsWith pat s || containsSub pat rest

/-- Escaping any single special character yields a concatenation of safe
tokens and literal non-backslash characters. -/
theorem safeBackslashes_esc_special (c : Char) (hc : c ∈ latexSpecialChars)
    (l : List Char) (hl : SafeBackslashes l) :
    SafeBackslashes (escape_latex [c] ++ l) := by
  fin_cases hc
  · show SafeBackslashes
      ("\\textbackslash".data ++ ("\\\x7b".data ++ ("\\\x7d".data ++ l)))
    exact .tok (by decide) (.tok (by decide) (.tok (by decide) hl))
  · show SafeBackslashes ("\\\x7b".data ++ l)
    exact .tok (by decide) hl
  · show SafeBackslashes ("\\\x7d".data ++ l)
    exact .tok (by decide) hl
  · show SafeBackslashes ("\\&".data ++ l)
    exact .tok (by decide) hl
  · show SafeBackslashes ("\\%".data ++ l)
    exact .tok (by decide) hl
  · show SafeBackslashes ("\\$".data ++ l)
    exact .tok (by decide) hl
  · show SafeBackslashes ("\\#".data ++ l)
    exact .tok (by decide) hl
  · show SafeBackslashes ("\\_".data ++ l)
    exact .tok (by decide) hl
  · show SafeBackslashes ("\\textasciitilde".data ++ ('\x7b' :: '\x7d' :: l))
    exact .tok (by decide) (.chr (by decide) (.chr (by decide) hl))
  · show SafeBackslashes ("\\textasciicircum".data ++ ('\x7b' :: '\x7d' :: l))
    exact .tok (by decide) (.chr (by decide) (.chr (by decide) hl))

/-- On a string with none of the special characters, `escape_latex` is the
identity. -/
theorem escape_latex_noop (s : List Char)
    (h : ∀ c ∈ s, c ∉ latexSpecialChars) : escape_latex s = s := by
  induction s with
  | nil => rfl
  | cons a s ih =>
    rw [escape_latex_cons, escape_latex_other a (h a (List.mem_cons_self a s)),
      ih (fun c hc => h c (List.mem_cons_of_mem a hc))]
    rfl

/-- C1: every backslash in the output of `escape_latex` is part of a
recognized safe-escape token, for every input string; in particular the
output for the injection attempt `\input{/etc/passwd}` does not contain
the literal substring `\input{`. -/
theorem c1_escape_latex_injection_safe :
    (∀ s : List Char, SafeBackslashes (escape_latex s)) ∧
      containsSub ("\\input\x7b".data)
        (escape_latex ("\\input\x7b/etc/passwd\x7d".data)) = false := by
  constructor
  · intro s
    induction s with
    | nil => exact .nil
    | cons a s ih =>
      rw [escape_latex_cons]
      by_cases h : a ∈ latexSpecialChars
      · exact safeBackslashes_esc_special a h _ ih
      · rw [escape_latex_other a h]
        have hbs : a ≠ '\\' := fun e => h (by rw [e]; decide)
        exact .chr hbs ih
  · decide

/-- C5: `escape_latex` is the sequential composition of its three stages in
source order — backslash first, then the braces, then the remaining
special characters — and the brace pair introduced by the backslash
replacement (visible raw after stage 1) is itself brace-escaped in the
final output. -/
theorem c5_escape_latex_stage_order :
    (∀ s : List Char,
        escape_latex s =
          escape_others_step (escape_braces_step (escape_backslash_step s))) ∧
      escape_backslash_step ['\\'] = "\\textbackslash\x7b\x7d".data ∧
      escape_latex ['\\'] = "\\textbackslash\\\x7b\\\x7d".data :=
  ⟨fun _ => rfl, rfl, rfl⟩

/-- C9: `escape_latex` is the identity outside its escaping domain — a
string with none of the special characters comes back unchanged, and every
non-string value (numbers, None, booleans) passes through the
`isinstance` guard untouched. -/
theorem c9_escape_latex_identity_outside_domain :
    (∀ s : List Char, (∀ c ∈ s, c ∉ latexSpecialChars) →
        escape_latex_py (.pystr s) = .pystr s) ∧
      escape_latex_py (.pyint 42) = .pyint 42 ∧
      escape_latex_py .pynone = .pynone ∧
      (∀ v : EscArg, (∀ s, v ≠ .pystr s) → escape_latex_py v = v) := by
  refine ⟨?_, rfl, rfl, ?_⟩
  · intro s h
    simp [escape_latex_py, escape_latex_noop s h]
  · intro v hv
    cases v with
    | pystr s => exact absurd rfl (hv s)
    | pyint n => rfl
    | pybool b => rfl
    | pynone => rfl

/-- Witness for C9 at concrete inputs: `"hello"` has no special character
and survives `escape_latex` unchanged. -/
theorem c9_escape_latex_identity_outside_domain_witness :
    (∀ c ∈ "hello".data, c ∉ latexSpecialChars) ∧
      escape_latex_py (.pystr "hello".data) = .pystr "hello".data :=
  ⟨by decide, c9_escape_latex_identity_outside_domain.1 "hello".data (by decide)⟩

/-! ## Section-title translation: `get_section_title`
(src/backend/translations.py)

`PDF_TRANSLATIONS` and `DEFAULT_TITLES` are transcribed entry for entry;
`Option` models Python `dict.get` returning `None` on a missing key. -/

/-- `PDF_TRANSLATIONS["fr"]`. -/
def frTitles : String → Option String
  | "summary" => some "Résumé"
  | "education" => some "Formation"
  | "experiences" => some "Expérience Professionnelle"
  | "projects" => some "Projets"
  | "skills" => some "Compétences Techniques"
  | "leadership" => some "Leadership & Engagement"
  | "languages" => some "Langues"
  | "custom" => some "Autre"
  | _ => none

/-- `PDF_TRANSLATIONS["en"]`. -/
def enTitles : String → Option String
  | "summary" => some "Summary"
  | "education" => some "Education"
  | "experiences" => some "Professional Experience"
  | "projects" => some "Projects"
  | "skills" => some "Technical Skills"
  | "leadership" => some "Leadership & Community"
  | "languages" => some "Languages"
  | "custom" => some "Other"
  | _ => none

/-- `PDF_TRANSLATIONS.get(lang, PDF_TRANSLATIONS["fr"])`: the per-language
table, falling back to French for an unrecognized language code. -/
def pdfTranslationsResolved (lang : String) : String → Option String :=
  if lang = "fr" then frTitles else if lang = "en" then enTitles else frTitles

/-- `DEFAULT_TITLES`: the frontend's default/placeholder titles per section
type, used to detect whether the user customized the title. -/
def defaultTitles : String → List String
  | "summary" => ["Summary", "Résumé"]
  | "education" => ["Education", "Formation"]
  | "experiences" =>
      ["Experiences", "Experience", "Expérience",
       "Expérience Professionnelle", "Professional Experience"]
  | "projects" => ["Projects", "Projets"]
  | "skills" =>
      ["Technical Skills", "Skills", "Compétences", "Compétences Techniques"]
  | "leadership" =>
      ["Leadership", "Leadership & Community Involvement",
       "Leadership & Community", "Leadership & Engagement"]
  | "languages" => ["Languages", "Langues"]
  | "custom" => ["Custom Section", "Custom", "Autre"]
  | _ => []

/-- Python `a or b` on strings: `b` when `a` is empty (falsy), else `a`. -/
def pyOr (a b : String) : String := if a = "" then b else a

/-- Python `str.capitalize()` (ASCII case mapping suffices here; this
fallback never fires for a known section type). -/
def pyCapitalize (s : String) : String :=
  match s.data with
  | [] => ""
  | c :: rest => ⟨Char.toUpper c :: rest.map Char.toLower⟩

/-- `get_section_title(section_type, lang, custom_title)` transcribed from
src/backend/translations.py. -/
def get_section_title (section_type lang custom_title : String) : String :=
  if section_type = "custom" then
    pyOr custom_title ((pdfTranslationsResolved lang "custom").getD "Other")
  else if custom_title = "" ∨ custom_title ∈ defaultTitles section_type then
    (pdfTranslationsResolved lang section_type).getD
      (pyOr custom_title (pyCapitalize section_type))
  else custom_title

/-- The section-type enumeration (spec §3). -/
def sectionTypes : List String :=
  ["summary", "education", "experiences", "projects", "skills",
   "leadership", "languages", "custom"]

/-- Default or empty titles of a non-custom section resolve through the
translation table. -/
theorem get_section_title_default (ty lang title : String)
    (hne : ty ≠ "custom") (hdef : title = "" ∨ title ∈ defaultTitles ty) :
    get_section_title ty lang title =
      (pdfTranslationsResolved lang ty).getD (pyOr title (pyCapitalize ty)) := by
  simp only [get_section_title]
  rw [if_neg hne, if_pos hdef]

/-- A customized title of a non-custom section is preserved verbatim. -/
theorem get_section_title_customized (ty lang title : String)
    (hne : ty ≠ "custom") (hne2 : title ≠ "")
    (hnm : title ∉ defaultTitles ty) :
    get_section_title ty lang title = title := by
  simp only [get_section_title]
  rw [if_neg hne, if_neg (not_or.mpr ⟨hne2, hnm⟩)]

/-- C6: for a known non-custom section type, a title equal to one of the
default placeholders (or empty) resolves to the localized canonical title
of the requested language, while any other title is preserved verbatim
regardless of language; a `custom` section always keeps its title, with
the localized generic label only when the title is empty.  Concretely,
`"Education"` renders as `"Formation"` in French and `"Education"` in
English, and `"Parcours Académique"` survives both languages unchanged. -/
theorem c6_get_section_title_localization :
    (∀ ty lang title : String, ty ∈ sectionTypes → ty ≠ "custom" →
        lang ∈ ["fr", "en"] →
        ((title = "" ∨ title ∈ defaultTitles ty) →
            some (get_section_title ty lang title) =
              (if lang = "en" then enTitles ty else frTitles ty)) ∧
          (title ≠ "" → title ∉ defaultTitles ty →
            get_section_title ty lang title = title)) ∧
      (∀ lang title : String, title ≠ "" →
          get_section_title "custom" lang title = title) ∧
      get_section_title "custom" "fr" "" = "Autre" ∧
      get_section_title "custom" "en" "" = "Other" ∧
      get_section_title "education" "fr" "Education" = "Formation" ∧
      get_section_title "education" "en" "Education" = "Education" ∧
      get_section_title "education" "fr" "Parcours Académique" =
        "Parcours Académique" ∧
      get_section_title "education" "en" "Parcours Académique" =
        "Parcours Académique" := by
  refine ⟨?_, ?_, by decide, by decide, by decide, by decide, by decide,
    by decide⟩
  · intro ty lang title hty hne hlang
    constructor
    · intro hdef
      rw [get_section_title_default ty lang title hne hdef]
      fin_cases hty <;> fin_cases hlang <;>
        first
          | exact absurd rfl hne
          | rfl
    · intro hne2 hnm
      exact get_section_title_customized ty lang title hne hne2 hnm
  · intro lang title h
    simp [get_section_title, pyOr, h]

/-- Witness for C6 at a concrete input: an `education` section with an
empty title renders the French canonical title. -/
theorem c6_get_section_title_localization_witness :
    get_section_title "education" "fr" "" = "Formation" :=
  Option.some.inj
    ((c6_get_section_title_localization.1 "education" "fr" "" (by decide)
        (by decide) (by decide)).1 (Or.inl rfl))

/-! ## Section normalization (src/app.py `convert_section_items`,
src/api/resumes.py `_convert_section_items`)

A small universe of the Python values that flow through the two
normalizers: strings, booleans, `None`, lists, dicts, and pydantic model
instances (whose `model_dump()` is their field dict).  The output of both
normalizers is an ordered association list, mirroring dict insertion
order, so the exact key set of the produced payload is part of the
model. -/

/-- The characters Python `str.strip()` removes. -/
def isPySpace (c : Char) : Bool :=
  c = ' ' || c = '\t' || c = '\n' || c = '\r' || c = '\x0b' || c = '\x0c'

/-- Drop leading Python whitespace. -/
def dropLeadingSpace : List Char → List Char
  | [] => []
  | c :: s => if isPySpace c then dropLeadingSpace s else c :: s

/-- Python `str.strip()`: remove leading and trailing whitespace. -/
def pyStrip (s : String) : String :=
  ⟨(dropLeadingSpace ((dropLeadingSpace s.data).reverse)).reverse⟩

/-- Python values reaching the section normalizers. -/
inductive Val where
  | vstr (s : String)
  | vbool (b : Bool)
  | vnone
  | vlist (xs : List Val)
  | vdict (fields : List (String × Val))
  | vmodel (fields : List (String × Val))

/-- Python `d.get(k)`: first binding of `k`, `None` (here `none`) if
absent. -/
def dictGet (fields : List (String × Val)) (k : String) : Option Val :=
  (fields.find? (fun p => p.1 == k)).map (fun p => p.2)

/-- Python `(d.get(k) or "")` on a legacy skills dict, whose values at
these keys are strings or `None`: the string value, or `""` when the key
is absent, `None`, or empty. -/
def getStrOr (fields : List (String × Val)) (k : String) : String :=
  match dictGet fields k with
  | some (.vstr s) => s
  | _ => ""

/-- Python truthiness of the modelled values. -/
def pyTruthy : Val → Bool
  | .vstr s => s != ""
  | .vbool b => b
  | .vnone => false
  | .vlist xs => !xs.isEmpty
  | .vdict f => !f.isEmpty
  | .vmodel _ => true

/-- Python `str(v)`.  Only the string case is ever inspected beyond
emptiness by the code under proof (the result only feeds `.strip()`
emptiness tests), so container renderings are abbreviated; like Python's,
they are non-blank, and they are only reached for truthy values. -/
def pyStrOf : Val → String
  | .vstr s => s
  | .vbool b => if b then "True" else "False"
  | .vnone => "None"
  | .vlist _ => "[...]"
  | .vdict _ => "\x7b...\x7d"
  | .vmodel _ => "<model>"

/-- `item.model_dump() if hasattr(item, "model_dump") else item`. -/
def model_dump : Val → Val
  | .vmodel f => .vdict f
  | v => v

/-- `CVSection` (src/app.py): pydantic model with required `id`, `type`,
`title`, default-true `isVisible`, and an untyped `items` payload. -/
structure CVSection where
  id : String
  type : String
  title : String
  isVisible : Bool
  items : Val

/-- `convert_section_items(section, lang)` from src/app.py, branch for
branch: skills keeps the (possibly dumped) legacy dict as `content` and
derives `has_content` from its two fields; `languages`/`summary` stringify
their items; every other type passes a list through (dumping models) or
degrades to an empty list.  The trailing pair mirrors the
`section_dict["has_content"] = has_content` assignment made after the
branches. -/
def convert_section_items (sec : CVSection) (lang : String) :
    List (String × Val) :=
  let translated_title := get_section_title sec.type lang sec.title
  let ch : Val × Bool :=
    if sec.type = "skills" then
      match sec.items with
      | .vdict f =>
          (.vdict f,
            pyStrip (getStrOr f "languages") != "" ||
              pyStrip (getStrOr f "tools") != "")
      | .vmodel f =>
          (.vdict f,
            pyStrip (getStrOr f "languages") != "" ||
              pyStrip (getStrOr f "tools") != "")
      | _ => (.vdict [("languages", .vstr ""), ("tools", .vstr "")], false)
    else if sec.type = "languages" ∨ sec.type = "summary" then
      let content_str := if pyTruthy sec.items then pyStrOf sec.items else ""
      (.vstr content_str, pyStrip content_str != "")
    else
      match sec.items with
      | .vlist xs => (.vlist (xs.map model_dump), decide (0 < xs.length))
      | _ => (.vlist [], false)
  [("id", .vstr sec.id), ("type", .vstr sec.type),
   ("title", .vstr translated_title), ("isVisible", .vbool sec.isVisible),
   ("content", ch.1), ("has_content", .vbool ch.2)]

/-- A raw section dict as received by the saved-resume route; `Option`
fields model `sec.get(key, default)` (a `none` is an absent key). -/
structure SectionDict where
  id : Option String
  type : Option String
  title : Option String
  isVisible : Option Bool
  items : Option Val

/-- `_convert_section_items(section, lang)` from src/api/resumes.py,
branch for branch: a legacy skills dict is converted to the
list-of-category shape (one entry per non-blank field, `"Programming
Languages"` then `"Tools"`), a skills list passes through, other shapes
degrade to an empty list; `languages`/`summary` stringify; other types
pass lists through.  No `has_content` key is ever written. -/
def _convert_section_items (sec : SectionDict) (lang : String) :
    List (String × Val) :=
  let section_type := sec.type.getD "custom"
  let translated_title := get_section_title section_type lang (sec.title.getD "")
  let items := sec.items.getD (.vlist [])
  let content : Val :=
    if section_type = "skills" then
      match items with
      | .vdict f =>
          .vlist
            ((if pyStrip (getStrOr f "languages") != "" then
                [Val.vdict [("category", .vstr "Programming Languages"),
                  ("skills", .vstr (getStrOr f "languages"))]]
              else []) ++
              (if pyStrip (getStrOr f "tools") != "" then
                [Val.vdict [("category", .vstr "Tools"),
                  ("skills", .vstr (getStrOr f "tools"))]]
              else []))
      | .vlist xs => .vlist xs
      | _ => .vlist []
    else if section_type = "languages" ∨ section_type = "summary" then
      .vstr (if pyTruthy items then pyStrOf items else "")
    else
      match items with
      | .vlist xs => .vlist xs
      | _ => .vlist []
  [("id", .vstr (sec.id.getD "")), ("type", .vstr section_type),
   ("title", .vstr translated_title),
   ("isVisible", .vbool (sec.isVisible.getD true)),
   ("content", content)]

/-- C10: the saved-resume route's normalizer emits exactly the keys `id`,
`type`, `title`, `isVisible`, `content` — never `has_content` — for every
section dict and language, while the `/generate` route's normalizer always
appends `has_content`; the render payload of
`/api/resumes/(resume_id)/generate` therefore carries no `has_content`
flag for templates to test. -/
theorem c10_has_content_key_presence :
    (∀ (s : SectionDict) (lang : String),
        (_convert_section_items s lang).map Prod.fst =
          ["id", "type", "title", "isVisible", "content"]) ∧
      (∀ (s : SectionDict) (lang : String),
        "has_content" ∉ (_convert_section_items s lang).map Prod.fst) ∧
      (∀ (s : CVSection) (lang : String),
        (convert_section_items s lang).map Prod.fst =
          ["id", "type", "title", "isVisible", "content", "has_content"]) := by
  refine ⟨fun s lang => rfl, fun s lang => ?_, fun s lang => rfl⟩
  have h : (_convert_section_items s lang).map Prod.fst =
      ["id", "type", "title", "isVisible", "content"] := rfl
  rw [h]
  decide

/-- The C4 failing input: a skills section in the legacy dict shape with a
non-blank `languages` and a blank `tools` field. -/
def c4SkillsItems : Val :=
  .vdict [("languages", .vstr "Python"), ("tools", .vstr "")]

/-- C4, evaluated at the failing input
`{"languages": "Python", "tools": ""}`: src/app.py's
`convert_section_items` does set `has_content = true` but leaves the
legacy dict as `content` (no conversion to the list-of-category shape,
contradicting the repository's own test
`test_convert_section_items.py::test_skills_partial_dict`), while
src/api/resumes.py's `_convert_section_items` produces the claimed
list-of-category content but emits no `has_content` key at all. -/
theorem c4_skills_legacy_dict_divergence :
    dictGet (convert_section_items ⟨"s1", "skills", "Skills", true,
        c4SkillsItems⟩ "fr") "content" = some c4SkillsItems ∧
      dictGet (convert_section_items ⟨"s1", "skills", "Skills", true,
        c4SkillsItems⟩ "fr") "has_content" = some (.vbool true) ∧
      dictGet (_convert_section_items ⟨some "s1", some "skills",
        some "Skills", none, some c4SkillsItems⟩ "fr") "content" =
        some (.vlist [.vdict [("category", .vstr "Programming Languages"),
          ("skills", .vstr "Python")]]) ∧
      dictGet (_convert_section_items ⟨some "s1", some "skills",
        some "Skills", none, some c4SkillsItems⟩ "fr") "has_content" =
        none :=
  ⟨rfl, rfl, rfl, rfl⟩

/-- The C7 failing input: a skills section already in the current
list-of-category shape, with a non-blank category. -/
def c7SkillsList : Val :=
  .vlist [.vdict [("category", .vstr "Programming Languages"),
    ("skills", .vstr "Python")]]

/-- C7, evaluated on src/app.py's `convert_section_items`: a skills
section whose items are a non-blank list of categories gets
`has_content = false` and its content replaced by a blank legacy dict
(the repository's own test `test_skills_with_list` asserts
`has_content is True`), and a skills section with both legacy fields
blank keeps the non-empty dict `{"languages": "", "tools": ""}` as
content rather than empty content (`test_skills_empty_dict` asserts
`content == []`).  The summary part of the claim does hold: whitespace-only
text yields `has_content = false`. -/
theorem c7_has_content_skills_divergence :
    dictGet (convert_section_items ⟨"s1", "skills", "Skills", true,
        c7SkillsList⟩ "fr") "has_content" = some (.vbool false) ∧
      dictGet (convert_section_items ⟨"s1", "skills", "Skills", true,
        c7SkillsList⟩ "fr") "content" =
        some (.vdict [("languages", .vstr ""), ("tools", .vstr "")]) ∧
      dictGet (convert_section_items ⟨"s1", "skills", "Skills", true,
        .vdict [("languages", .vstr ""), ("tools", .vstr "")]⟩ "fr")
        "has_content" = some (.vbool false) ∧
      dictGet (convert_section_items ⟨"s1", "skills", "Skills", true,
        .vdict [("languages", .vstr ""), ("tools", .vstr "")]⟩ "fr")
        "content" =
        some (.vdict [("languages", .vstr ""), ("tools", .vstr "")]) ∧
      dictGet (convert_section_items ⟨"s1", "summary", "Summary", true,
        .vstr "   "⟩ "fr") "has_content" = some (.vbool false) :=
  ⟨rfl, rfl, rfl, rfl, rfl⟩

/-! ## Document compiler invocation -/

/-- Modelled from the spec: `PdfCompiler.compile` — the implementation
file `core/PdfCompiler.py` is missing from the source tree; only its
tests (src/backend/tests/test_pdf_compiler_v2.py, src/tests/test_pdf_compiler.py)
and its callers are present.  Per spec §4.4 the toolchain subprocess runs
with the output directory pinned to the source file's parent,
non-interactive batch mode, and shell-escape explicitly disabled; the flag
spellings follow the repository's compiler tests. -/
def pdf_compile_cmd (tex_file parent_dir : String) : List String :=
  ["latexmk", "-pdf", "-no-shell-escape", "-interaction=nonstopmode",
   "-outdir=" ++ parent_dir, tex_file]

/-- Modelled from the spec: the compile operation fails fast (source not
found, before any subprocess) when the source file does not exist, and
otherwise invokes exactly one subprocess, with `pdf_compile_cmd`.  The
returned value is the command line of the subprocess invocation, `none`
when no subprocess ran. -/
def pdf_compile (tex_exists : Bool) (tex_file parent_dir : String) :
    Option (List String) :=
  if tex_exists then some (pdf_compile_cmd tex_file parent_dir) else none

/-- C2: every subprocess invocation the compile operation constructs
includes the shell-escape-disabled flag, for every call and every
input. -/
theorem c2_compile_cmd_always_no_shell_escape
    (tex_exists : Bool) (tex_file parent_dir : String) (cmd : List String)
    (h : pdf_compile tex_exists tex_file parent_dir = some cmd) :
    "-no-shell-escape" ∈ cmd := by
  cases tex_exists with
  | false => simp [pdf_compile] at h
  | true =>
      simp only [pdf_compile, if_pos, Option.some.injEq] at h
      rw [← h]
      simp [pdf_compile_cmd]

/-- Witness for C2 at a concrete invocation. -/
theorem c2_compile_cmd_always_no_shell_escape_witness :
    pdf_compile true "/tmp/cv/main.tex" "/tmp/cv" =
        some (pdf_compile_cmd "/tmp/cv/main.tex" "/tmp/cv") ∧
      "-no-shell-escape" ∈ pdf_compile_cmd "/tmp/cv/main.tex" "/tmp/cv" :=
  ⟨rfl, c2_compile_cmd_always_no_shell_escape true "/tmp/cv/main.tex"
    "/tmp/cv" _ rfl⟩

/-! ## PDF generation routes (src/app.py `generate_cv`,
src/api/resumes.py `generate_resume_pdf`)

Both routes create a working directory with `tempfile.mkdtemp`, run the
template-copy → render → compile → read pipeline inside `try`, translate
failures to `HTTPException` in `except` arms, and remove the directory in
a `finally` block (`contextlib.suppress(Exception)` around
`shutil.rmtree`; removal itself is modelled as succeeding).  The
environment captures the outcome of each effectful step. -/

/-- The exceptions the routes distinguish. -/
inductive PyErr where
  | runtimeError
  | httpException (code : Nat)
  | otherExc
deriving DecidableEq

/-- `VALID_TEMPLATES` (identical in src/app.py and src/api/resumes.py). -/
def VALID_TEMPLATES : List String :=
  ["harvard", "harvard_compact", "harvard_large",
   "europass", "europass_compact", "europass_large",
   "mckinsey", "mckinsey_compact", "mckinsey_large",
   "aurianne", "aurianne_compact", "aurianne_large",
   "stephane", "stephane_compact", "stephane_large",
   "michel", "michel_compact", "michel_large",
   "double", "double_compact", "double_large"]

/-- `DEFAULT_TEMPLATE`. -/
def DEFAULT_TEMPLATE : String := "harvard"

/-- `template_id if template_id in VALID_TEMPLATES else DEFAULT_TEMPLATE`. -/
def resolve_template_id (tid : String) : String :=
  if tid ∈ VALID_TEMPLATES then tid else DEFAULT_TEMPLATE

/-- Outcomes of the effectful steps of one render call. -/
structure GenEnv where
  templateFileExists : String → Bool
  renderRaises : Bool
  compileRaises : Bool
  pdfProduced : Bool

/-- The `try` block shared (line for line, up to messages) by both
routes: resolve the template id, fall back to the default template file
when the resolved one is absent, copy it (`shutil.copy` raises when even
that file is missing), render (`RuntimeError` on failure), compile
(`RuntimeError` on failure), check `main.pdf` exists (`HTTPException 500`
otherwise), and read its bytes. -/
def generate_try_body (env : GenEnv) (tid : String) : Except PyErr String :=
  let template_id := resolve_template_id tid
  let src := if env.templateFileExists template_id then template_id
    else DEFAULT_TEMPLATE
  if !env.templateFileExists src then .error .otherExc
  else if env.renderRaises then .error .runtimeError
  else if env.compileRaises then .error .runtimeError
  else if !env.pdfProduced then .error (.httpException 500)
  else .ok "pdfbytes"

/-- src/app.py's `except` arms: `RuntimeError` → 500, `HTTPException`
re-raised, anything else → 500. -/
def app_exc_handler : PyErr → PyErr
  | .runtimeError => .httpException 500
  | .httpException c => .httpException c
  | .otherExc => .httpException 500

/-- src/api/resumes.py's `except` arms: `HTTPException` re-raised first,
then `RuntimeError` → 500, anything else → 500. -/
def resumes_exc_handler : PyErr → PyErr
  | .httpException c => .httpException c
  | .runtimeError => .httpException 500
  | .otherExc => .httpException 500

/-- What one route call returns, and whether its working directory was
removed by the time it returned. -/
structure CallOutcome where
  result : Except PyErr String
  tempDirRemoved : Bool

/-- `try`/`except`/`finally`: the handler maps any body exception, and the
`finally` block removes the working directory on every path — also when
the handler re-raises. -/
def tryExceptFinally (body : Except PyErr String)
    (handler : PyErr → PyErr) : CallOutcome :=
  { result :=
      match body with
      | .ok v => .ok v
      | .error e => .error (handler e),
    tempDirRemoved := true }

/-- `generate_cv` (src/app.py), from `tempfile.mkdtemp` on. -/
def generate_cv (env : GenEnv) (tid : String) : CallOutcome :=
  tryExceptFinally (generate_try_body env tid) app_exc_handler

/-- `generate_resume_pdf` (src/api/resumes.py), from `tempfile.mkdtemp`
on. -/
def generate_resume_pdf (env : GenEnv) (tid : String) : CallOutcome :=
  tryExceptFinally (generate_try_body env tid) resumes_exc_handler

/-- C3: after either PDF-generation entry point returns — PDF bytes,
compilation error, or any other exception — the working directory created
for the call has been removed; moreover no raw exception other than an
`HTTPException` escapes either route. -/
theorem c3_workdir_removed_on_every_path (env : GenEnv) (tid : String) :
    (generate_cv env tid).tempDirRemoved = true ∧
      (generate_resume_pdf env tid).tempDirRemoved = true ∧
      (∀ e, (generate_cv env tid).result = .error e →
        ∃ c, e = .httpException c) ∧
      (∀ e, (generate_resume_pdf env tid).result = .error e →
        ∃ c, e = .httpException c) := by
  refine ⟨rfl, rfl, ?_, ?_⟩
  · intro e h
    simp only [generate_cv, tryExceptFinally] at h
    cases hb : generate_try_body env tid with
    | ok v => rw [hb] at h; exact absurd h (by simp)
    | error e2 =>
        rw [hb] at h
        simp only [Except.error.injEq] at h
        cases e2 <;> simp [app_exc_handler] at h <;> exact ⟨_, h.symm⟩
  · intro e h
    simp only [generate_resume_pdf, tryExceptFinally] at h
    cases hb : generate_try_body env tid with
    | ok v => rw [hb] at h; exact absurd h (by simp)
    | error e2 =>
        rw [hb] at h
        simp only [Except.error.injEq] at h
        cases e2 <;> simp [resumes_exc_handler] at h <;> exact ⟨_, h.symm⟩

/-- Witness for C3 at a concrete failing call: compilation fails, the
directory is removed and the surfaced error is an `HTTPException`. -/
theorem c3_workdir_removed_on_every_path_witness :
    (generate_cv ⟨fun _ => true, false, true, false⟩
        "harvard").tempDirRemoved = true ∧
      ∃ c, PyErr.httpException 500 = PyErr.httpException c :=
  ⟨(c3_workdir_removed_on_every_path ⟨fun _ => true, false, true, false⟩
      "harvard").1,
    (c3_workdir_removed_on_every_path ⟨fun _ => true, false, true, false⟩
      "harvard").2.2.1 (.httpException 500) rfl⟩

/-- C8: an unrecognized template identifier resolves to the fixed default
template; the whole call then behaves exactly as a call for the default
template — in particular it is never rejected solely for the template
name, and it succeeds whenever the default-template pipeline succeeds. -/
theorem c8_unknown_template_falls_back (env : GenEnv) (tid : String)
    (h : tid ∉ VALID_TEMPLATES) :
    resolve_template_id tid = DEFAULT_TEMPLATE ∧
      generate_cv env tid = generate_cv env DEFAULT_TEMPLATE ∧
      generate_resume_pdf env tid = generate_resume_pdf env DEFAULT_TEMPLATE ∧
      (env.templateFileExists DEFAULT_TEMPLATE = true →
        env.renderRaises = false → env.compileRaises = false →
        env.pdfProduced = true →
        (generate_cv env tid).result = .ok "pdfbytes") := by
  have hr : resolve_template_id tid = DEFAULT_TEMPLATE := by
    simp only [resolve_template_id]
    rw [if_neg h]
  have hrd : resolve_template_id DEFAULT_TEMPLATE = DEFAULT_TEMPLATE := by
    decide
  have hbody : generate_try_body env tid =
      generate_try_body env DEFAULT_TEMPLATE := by
    simp only [generate_try_body, hr, hrd]
  refine ⟨hr, ?_, ?_, ?_⟩
  · simp only [generate_cv, hbody]
  · simp only [generate_resume_pdf, hbody]
  · intro h1 h2 h3 h4
    simp [generate_cv, tryExceptFinally, generate_try_body, hr, h1, h2, h3, h4]

/-- Witness for C8: `"doesnotexist"` is not an allowed template name and
the call falls back to the default template. -/
theorem c8_unknown_template_falls_back_witness :
    "doesnotexist" ∉ VALID_TEMPLATES ∧
      resolve_template_id "doesnotexist" = DEFAULT_TEMPLATE ∧
      (generate_cv ⟨fun _ => true, false, false, true⟩
          "doesnotexist").result = .ok "pdfbytes" :=
  ⟨by decide,
    (c8_unknown_template_falls_back ⟨fun _ => true, false, false, true⟩
      "doesnotexist" (by decide)).1,
    (c8_unknown_template_falls_back ⟨fun _ => true, false, false, true⟩
      "doesnotexist" (by decide)).2.2.2 rfl rfl rfl rfl⟩
